import Mathlib

/-!
Shallow embedding of the inspection-photo duplicate checker (`src/app.py`).

The pipeline: extract embedded photos from each uploaded PDF (page by page),
keep those of size at least 300x150, fingerprint the raw encoded bytes with
MD5, group records by fingerprint (a fingerprint with at least two records is
a duplicate set, sets presented in ascending fingerprint order), and cluster
report files that co-occur in duplicate sets via `merge_group`.

External collaborators (the `fitz` PDF parser, `PIL` image decoding, the
Streamlit UI) are modelled abstractly: a document either parses into a list
of pages, each a list of photos with known pixel dimensions and raw bytes,
or it fails to parse.  `hashlib.md5` is embedded faithfully (RFC 1321),
operating on byte lists, with the hex digest read as a natural number in
print order so that digest comparison agrees with the hexdigest string order
used by `sort_values("md5")` / `groupby("md5")`.
-/

namespace InspectionDup

/-! ### MD5 (faithful model of `hashlib.md5(...).hexdigest()`) -/

/-- `2^32`, the word modulus of MD5. -/
def w32 : Nat := 4294967296

/-- `2^32 - 1`, used for 32-bit complement. -/
def mask32 : Nat := 4294967295

/-- Left-rotation of a 32-bit word. -/
def rotl32 (x s : Nat) : Nat := ((x <<< s) ||| (x >>> (32 - s))) % w32

/-- The 64 MD5 round constants `floor(2^32 * |sin(i+1)|)` (RFC 1321). -/
def md5K : List Nat :=
  [0xd76aa478, 0xe8c7b756, 0x242070db, 0xc1bdceee,
   0xf57c0faf, 0x4787c62a, 0xa8304613, 0xfd469501,
   0x698098d8, 0x8b44f7af, 0xffff5bb1, 0x895cd7be,
   0x6b901122, 0xfd987193, 0xa679438e, 0x49b40821,
   0xf61e2562, 0xc040b340, 0x265e5a51, 0xe9b6c7aa,
   0xd62f105d, 0x02441453, 0xd8a1e681, 0xe7d3fbc8,
   0x21e1cde6, 0xc33707d6, 0xf4d50d87, 0x455a14ed,
   0xa9e3e905, 0xfcefa3f8, 0x676f02d9, 0x8d2a4c8a,
   0xfffa3942, 0x8771f681, 0x6d9d6122, 0xfde5380c,
   0xa4beea44, 0x4bdecfa9, 0xf6bb4b60, 0xbebfbc70,
   0x289b7ec6, 0xeaa127fa, 0xd4ef3085, 0x04881d05,
   0xd9d4d039, 0xe6db99e5, 0x1fa27cf8, 0xc4ac5665,
   0xf4292244, 0x432aff97, 0xab9423a7, 0xfc93a039,
   0x655b59c3, 0x8f0ccc92, 0xffeff47d, 0x85845dd1,
   0x6fa87e4f, 0xfe2ce6e0, 0xa3014314, 0x4e0811a1,
   0xf7537e82, 0xbd3af235, 0x2ad7d2bb, 0xeb86d391]

/-- The 64 per-round left-rotation amounts (RFC 1321). -/
def md5S : List Nat :=
  [7, 12, 17, 22, 7, 12, 17, 22, 7, 12, 17, 22, 7, 12, 17, 22,
   5, 9, 14, 20, 5, 9, 14, 20, 5, 9, 14, 20, 5, 9, 14, 20,
   4, 11, 16, 23, 4, 11, 16, 23, 4, 11, 16, 23, 4, 11, 16, 23,
   6, 10, 15, 21, 6, 10, 15, 21, 6, 10, 15, 21, 6, 10, 15, 21]

/-- The round function of MD5 (round `i`, registers `b c d`). -/
def md5F (i b c d : Nat) : Nat :=
  if i < 16 then (b &&& c) ||| ((mask32 ^^^ b) &&& d)
  else if i < 32 then (d &&& b) ||| ((mask32 ^^^ d) &&& c)
  else if i < 48 then b ^^^ c ^^^ d
  else c ^^^ (b ||| (mask32 ^^^ d))

/-- The message-word index used in round `i`. -/
def md5G (i : Nat) : Nat :=
  if i < 16 then i
  else if i < 32 then (5 * i + 1) % 16
  else if i < 48 then (3 * i + 5) % 16
  else (7 * i) % 16

/-- Little-endian 32-bit word `g` of a 64-byte chunk. -/
def md5Word (chunk : List Nat) (g : Nat) : Nat :=
  chunk.getD (4 * g) 0 + 256 * chunk.getD (4 * g + 1) 0 +
    65536 * chunk.getD (4 * g + 2) 0 + 16777216 * chunk.getD (4 * g + 3) 0

/-- One MD5 round applied to the register tuple `(a, b, c, d)`. -/
def md5Step (chunk : List Nat) (st : Nat × Nat × Nat × Nat) (i : Nat) :
    Nat × Nat × Nat × Nat :=
  let a := st.1
  let b := st.2.1
  let c := st.2.2.1
  let d := st.2.2.2
  let f := (md5F i b c d + a + md5K.getD i 0 + md5Word chunk (md5G i)) % w32
  (d, (b + rotl32 f (md5S.getD i 0)) % w32, b, c)

/-- One 64-byte chunk: 64 rounds, then addition into the running state. -/
def md5Block (st : Nat × Nat × Nat × Nat) (chunk : List Nat) :
    Nat × Nat × Nat × Nat :=
  let r := (List.range 64).foldl (md5Step chunk) st
  ((st.1 + r.1) % w32, (st.2.1 + r.2.1) % w32,
   (st.2.2.1 + r.2.2.1) % w32, (st.2.2.2 + r.2.2.2) % w32)

/-- Fold the compression function over successive 64-byte chunks; the fuel
argument (instantiated with the list length, which bounds the number of
chunks) makes the recursion structural. -/
def md5ChunksAux : Nat → Nat × Nat × Nat × Nat → List Nat → Nat × Nat × Nat × Nat
  | 0, st, _ => st
  | _ + 1, st, [] => st
  | fuel + 1, st, b :: rest =>
    md5ChunksAux fuel (md5Block st ((b :: rest).take 64)) (rest.drop 63)

/-- Fold the compression function over successive 64-byte chunks. -/
def md5Chunks (st : Nat × Nat × Nat × Nat) (l : List Nat) : Nat × Nat × Nat × Nat :=
  md5ChunksAux l.length st l

/-- MD5 padding: a `0x80` byte, zeros to 56 mod 64, then the bit length as a
little-endian 64-bit quantity. -/
def md5Pad (msg : List Nat) : List Nat :=
  let len := msg.length
  let zeros := (119 - len % 64) % 64
  let bitLen := (8 * len) % 18446744073709551616
  msg ++ 128 :: (List.replicate zeros 0 ++
    (List.range 8).map (fun i => (bitLen >>> (8 * i)) % 256))

/-- The 16 digest bytes in output order (each register little-endian),
exactly the byte order printed by `hexdigest()`. -/
def md5Digest (msg : List Nat) : List Nat :=
  let r := md5Chunks (0x67452301, 0xefcdab89, 0x98badcfe, 0x10325476) (md5Pad msg)
  [r.1 % 256, (r.1 >>> 8) % 256, (r.1 >>> 16) % 256, (r.1 >>> 24) % 256,
   r.2.1 % 256, (r.2.1 >>> 8) % 256, (r.2.1 >>> 16) % 256, (r.2.1 >>> 24) % 256,
   r.2.2.1 % 256, (r.2.2.1 >>> 8) % 256, (r.2.2.1 >>> 16) % 256, (r.2.2.1 >>> 24) % 256,
   r.2.2.2 % 256, (r.2.2.2 >>> 8) % 256, (r.2.2.2 >>> 16) % 256, (r.2.2.2 >>> 24) % 256]

/-- The MD5 fingerprint of a byte list, read as the natural number whose
base-256 digits are the digest bytes in `hexdigest()` print order.  Two
fingerprints are equal iff the hexdigest strings are equal, and the numeric
order agrees with the lexicographic order of the hexdigest strings used by
`sort_values("md5")`. -/
def md5 (msg : List Nat) : Nat :=
  (md5Digest msg).foldl (fun acc x => acc * 256 + x) 0

/-! ### Data model -/

/-- An embedded raster image: its raw encoded bytes (the `data["image"]`
payload hashed by the app) and the pixel dimensions reported by `PIL`
(`image.size`). -/
structure Photo where
  bytes : List Nat
  width : Nat
  height : Nat
deriving DecidableEq

/-- An uploaded source document.  The external `fitz` parser is modelled
abstractly: `parses` records whether `fitz.open` succeeds, and `pages` holds,
per page, the embedded photos listed by `page.get_images(full=True)` in
discovery order. -/
structure Document where
  name : String
  parses : Bool
  pages : List (List Photo)
deriving DecidableEq

/-- One row of the `all_photos` dataframe: `{"file", "page", "md5", "image"}`
as built by `extract_photos`. -/
structure PhotoRecord where
  file : String
  page : Nat
  md5 : Nat
  image : Photo
deriving DecidableEq

/-! ### Extraction (`extract_photos`, app.py:90-113) -/

/-- `extract_photos(pdf_name, pdf_bytes)`: walk the pages in order, keep each
embedded image with `w >= 300 and h >= 150`, and record its MD5 fingerprint.
The under-threshold images are dropped before hashing. -/
def extract_photos (pdf_name : String) (pages : List (List Photo)) :
    List PhotoRecord :=
  (pages.enum.map (fun pi =>
    (pi.2.filter (fun p => decide (300 ≤ p.width) && decide (150 ≤ p.height))).map
      (fun p => { file := pdf_name, page := pi.1, md5 := md5 p.bytes, image := p }))).flatten

/-- Extraction of one document including the `fitz.open` step, which raises
(an uncaught exception in the app) when the document cannot be parsed. -/
def extract_photosE (d : Document) : Except String (List PhotoRecord) :=
  if d.parses then .ok (extract_photos d.name d.pages) else .error d.name

/-- The extraction loop (app.py:143-145): `all_photos` is extended document
by document; an exception raised for any document aborts the whole loop. -/
def extractAll : List Document → Except String (List PhotoRecord)
  | [] => .ok []
  | d :: ds =>
    match extract_photosE d with
    | .error e => .error e
    | .ok rs =>
      match extractAll ds with
      | .error e => .error e
      | .ok rest => .ok (rs ++ rest)

/-! ### Duplicate grouping (app.py:154, 214) -/

/-- `df[df.duplicated("md5", keep=False)]`: the records whose fingerprint
occurs at least twice in the snapshot. -/
def duplicated_records (records : List PhotoRecord) : List PhotoRecord :=
  records.filter (fun r => decide (2 ≤ records.countP (fun r2 => r2.md5 == r.md5)))

/-- The distinct duplicated fingerprints in ascending order — the keys of
`duplicates.groupby("md5")` after `sort_values("md5")`. -/
def dupFingerprints (records : List PhotoRecord) : List Nat :=
  (((duplicated_records records).map (fun r => r.md5)).dedup).insertionSort (· ≤ ·)

/-- The duplicate sets: for each duplicated fingerprint in ascending order,
the records of the duplicated snapshot carrying it. -/
def duplicateSets (records : List PhotoRecord) : List (Nat × List PhotoRecord) :=
  (dupFingerprints records).map
    (fun m => (m, (duplicated_records records).filter (fun r => r.md5 == m)))

/-! ### Report clustering (`merge_group`, app.py:204-217) -/

/-- `merge_group(new_set)` (app.py:206-211): scan the current groups in
order; the first group meeting `new_set` absorbs it in place and the scan
stops; if none meets it, `new_set` is appended as a new group. -/
def merge_group : List (Finset String) → Finset String → List (Finset String)
  | [], new_set => [new_set]
  | g :: gs, new_set =>
    if (g ∩ new_set).Nonempty then (g ∪ new_set) :: gs
    else g :: merge_group gs new_set

/-- The file-name set of one duplicate set: `set(group["file"].unique())`. -/
def setFiles (s : Nat × List PhotoRecord) : Finset String :=
  (s.2.map (fun r => r.file)).toFinset

/-- `report_groups` after the render loop (app.py:214-217): fold
`merge_group` over the duplicate sets in `groupby("md5")` order. -/
def report_groups (dupSets : List (Nat × List PhotoRecord)) : List (Finset String) :=
  dupSets.foldl (fun groups s => merge_group groups (setFiles s)) []

/-! ### The run (`Run Duplicate Check` button handler, app.py:120-160) -/

/-- `{name for name in filenames if filenames.count(name) > 1}`
(app.py:127-128). -/
def duplicated_filenames (filenames : List String) : Finset String :=
  (filenames.filter (fun n => decide (1 < filenames.count n))).toFinset

/-- The distinguishable terminal outcomes of one run: the two early input
errors, the uncaught per-document parse failure, the two distinct empty
success states, and the duplicate results with their report groups. -/
inductive RunResult where
  | noFiles
  | duplicateNames (names : Finset String)
  | formatError (name : String)
  | noPhotos
  | noDuplicates
  | results (dupSets : List (Nat × List PhotoRecord)) (groups : List (Finset String))
deriving DecidableEq

/-- The full run: empty-upload check, duplicate-filename validation (before
any extraction), the extraction loop (aborted by the first unparseable
document), the `df.empty` check, the `duplicates.empty` check, and finally
the duplicate sets with their report groups. -/
def runDuplicateCheck (batch : List Document) : RunResult :=
  if batch.isEmpty then .noFiles
  else if (duplicated_filenames (batch.map (fun d => d.name))).Nonempty then
    .duplicateNames (duplicated_filenames (batch.map (fun d => d.name)))
  else
    match extractAll batch with
    | .error name => .formatError name
    | .ok records =>
      if records.isEmpty then .noPhotos
      else if (duplicated_records records).isEmpty then .noDuplicates
      else .results (duplicateSets records) (report_groups (duplicateSets records))

/-- Whether a run reached the duplicate-results terminal state. -/
def isResults : RunResult → Bool
  | .results _ _ => true
  | _ => false

/-- The name of the first document of the batch on which `fitz.open` raises,
if any: the extraction loop stops there. -/
def firstUnparseable : List Document → Option String
  | [] => none
  | d :: ds => if d.parses then firstUnparseable ds else some d.name

/-! ### Concrete fixtures

A four-document batch on which the `merge_group` clustering mis-merges.  The
three distinct photo contents hash, in ascending hexdigest order, to
`md5 [1] = 55a5…` (shared by `a.pdf`/`d.pdf`), `md5 [0] = 93b8…` (shared by
`b.pdf`/`c.pdf`) and `md5 [2] = 9e68…` (shared by `a.pdf`/`b.pdf`), so the
`a.pdf`-`b.pdf` set arrives last, when the other two groups already exist. -/

/-- Photo shared by `a.pdf` and `d.pdf` (smallest hexdigest). -/
def photoAD : Photo := ⟨[1], 300, 150⟩

/-- Photo shared by `b.pdf` and `c.pdf` (middle hexdigest). -/
def photoBC : Photo := ⟨[0], 300, 150⟩

/-- Photo shared by `a.pdf` and `b.pdf` (largest hexdigest). -/
def photoAB : Photo := ⟨[2], 300, 150⟩

/-- Document `a.pdf` of the chain batch. -/
def docA : Document := ⟨"a.pdf", true, [[photoAD, photoAB]]⟩

/-- Document `b.pdf` of the chain batch. -/
def docB : Document := ⟨"b.pdf", true, [[photoBC, photoAB]]⟩

/-- Document `c.pdf` of the chain batch. -/
def docC : Document := ⟨"c.pdf", true, [[photoBC]]⟩

/-- Document `d.pdf` of the chain batch. -/
def docD : Document := ⟨"d.pdf", true, [[photoAD]]⟩

/-- The chain batch: `a.pdf ~ b.pdf ~ c.pdf` transitively, plus `d.pdf`
attached to `a.pdf`. -/
def chainBatch : List Document := [docA, docB, docC, docD]

/-- The photo records extracted from the chain batch. -/
def chainRecords : List PhotoRecord :=
  match extractAll chainBatch with
  | .ok rs => rs
  | .error _ => []

/-- The report groups the run produces on the chain batch. -/
def chainGroups : List (Finset String) :=
  match runDuplicateCheck chainBatch with
  | .results _ gs => gs
  | _ => []

/-- A document whose bytes `fitz.open` rejects. -/
def badDoc : Document := ⟨"bad.pdf", false, []⟩

/-- A well-formed document with a single above-threshold photo. -/
def goodDoc : Document := ⟨"good.pdf", true, [[⟨[0], 300, 150⟩]]⟩

/-- A record snapshot with one duplicated fingerprint (5) and one unique
fingerprint (3), used to witness the grouper properties. -/
def sampleRecords : List PhotoRecord :=
  [⟨"r1.pdf", 0, 5, ⟨[], 1, 1⟩⟩, ⟨"r2.pdf", 1, 5, ⟨[], 1, 1⟩⟩,
   ⟨"r3.pdf", 2, 3, ⟨[], 1, 1⟩⟩]

/-- The one duplicate set of `sampleRecords`. -/
def sampleSet : Nat × List PhotoRecord :=
  (5, [⟨"r1.pdf", 0, 5, ⟨[], 1, 1⟩⟩, ⟨"r2.pdf", 1, 5, ⟨[], 1, 1⟩⟩])

/-- A document whose only embedded image is below the size threshold, so
extraction yields no records. -/
def emptyDoc : Document := ⟨"empty.pdf", true, [[⟨[7], 10, 10⟩]]⟩

/-- A document with two above-threshold photos of distinct content. -/
def twoDistinct : Document :=
  ⟨"two.pdf", true, [[⟨[0], 300, 150⟩, ⟨[1], 300, 150⟩]]⟩

/-- The first scenario document of claim C9: the same photo on pages 0
and 2. -/
def scenarioDoc1 : Document :=
  ⟨"report1.pdf", true, [[⟨[9], 300, 150⟩], [], [⟨[9], 300, 150⟩]]⟩

/-- The second scenario document of claim C9: one photo matching nothing. -/
def scenarioDoc2 : Document := ⟨"report2.pdf", true, [[⟨[8], 300, 150⟩]]⟩

/-! ### Digest bounds -/

lemma md5Digest_lt (msg : List Nat) : ∀ x ∈ md5Digest msg, x < 256 := by
  intro x hx
  simp only [md5Digest, List.mem_cons, List.not_mem_nil, or_false] at hx
  rcases hx with rfl | rfl | rfl | rfl | rfl | rfl | rfl | rfl |
    rfl | rfl | rfl | rfl | rfl | rfl | rfl | rfl
  all_goals exact Nat.mod_lt _ (by norm_num)

lemma foldl_base256_lt :
    ∀ (l : List Nat), (∀ x ∈ l, x < 256) → ∀ acc : Nat,
      l.foldl (fun a x => a * 256 + x) acc < (acc + 1) * 256 ^ l.length := by
  intro l
  induction l with
  | nil => intro _ acc; simp
  | cons x xs ih =>
    intro h acc
    have hx : x < 256 := h x (List.mem_cons_self x xs)
    have hrec := ih (fun y hy => h y (List.mem_cons_of_mem x hy)) (acc * 256 + x)
    calc (x :: xs).foldl (fun a x => a * 256 + x) acc
        = xs.foldl (fun a x => a * 256 + x) (acc * 256 + x) := rfl
      _ < (acc * 256 + x + 1) * 256 ^ xs.length := hrec
      _ ≤ ((acc + 1) * 256) * 256 ^ xs.length := by
          have : acc * 256 + x + 1 ≤ (acc + 1) * 256 := by nlinarith
          exact Nat.mul_le_mul_right _ this
      _ = (acc + 1) * 256 ^ (x :: xs).length := by
          rw [List.length_cons, pow_succ]
          ring

lemma md5_lt (msg : List Nat) : md5 msg < 2 ^ 128 := by
  have h := foldl_base256_lt (md5Digest msg) (md5Digest_lt msg) 0
  have hlen : (md5Digest msg).length = 16 := by simp [md5Digest]
  rw [hlen] at h
  have h2 : (0 + 1) * 256 ^ 16 = 2 ^ 128 := by norm_num
  rw [h2] at h
  exact h

/-! ### Counting helpers -/

lemma countP_map_count {α β : Type} [DecidableEq β] (f : α → β) (l : List α) (b : β) :
    l.countP (fun a => f a == b) = (l.map f).count b := by
  induction l with
  | nil => rfl
  | cons x xs ih =>
    simp only [List.map_cons, List.countP_cons, List.count_cons, ih, beq_iff_eq]

lemma two_le_countP_of_mem {α : Type} (p : α → Bool) (l : List α) (a b : α)
    (ha : a ∈ l) (hb : b ∈ l) (hab : a ≠ b) (hpa : p a = true) (hpb : p b = true) :
    2 ≤ l.countP p := by
  obtain ⟨s, t, rfl⟩ := List.append_of_mem ha
  have hb2 : b ∈ s ++ t := by
    rcases List.mem_append.1 hb with h | h
    · exact List.mem_append.2 (Or.inl h)
    · rcases List.mem_cons.1 h with h | h
      · exact absurd h.symm hab
      · exact List.mem_append.2 (Or.inr h)
  have h1 : 0 < (s ++ t).countP p := List.countP_pos_iff.2 ⟨b, hb2, hpb⟩
  have h2 : (s ++ a :: t).countP p =
      s.countP p + (t.countP p + 1) := by
    simp [List.countP_append, List.countP_cons, hpa]
  have h3 : (s ++ t).countP p = s.countP p + t.countP p := List.countP_append ..
  omega

/-! ### Filename-validation helpers -/

lemma mem_duplicated_filenames {names : List String} {n : String} :
    n ∈ duplicated_filenames names ↔ n ∈ names ∧ 1 < names.count n := by
  simp [duplicated_filenames, List.mem_filter]

lemma duplicated_filenames_eq_empty {names : List String} (h : names.Nodup) :
    duplicated_filenames names = ∅ := by
  ext n
  simp only [mem_duplicated_filenames, Finset.not_mem_empty, iff_false, not_and, not_lt]
  intro _
  exact List.nodup_iff_count_le_one.1 h n

/-! ### Extraction helpers -/

lemma extract_photos_mem {pdf_name : String} {pages : List (List Photo)}
    {r : PhotoRecord} :
    r ∈ extract_photos pdf_name pages ↔
      ∃ i photos, (i, photos) ∈ pages.enum ∧ ∃ p ∈ photos,
        300 ≤ p.width ∧ 150 ≤ p.height ∧
        r = ⟨pdf_name, i, md5 p.bytes, p⟩ := by
  unfold extract_photos
  rw [List.mem_flatten]
  constructor
  · rintro ⟨l, hl, hr⟩
    obtain ⟨⟨i, photos⟩, hip, rfl⟩ := List.mem_map.1 hl
    obtain ⟨p, hp, rfl⟩ := List.mem_map.1 hr
    have hp2 := List.mem_filter.1 hp
    have hsz : 300 ≤ p.width ∧ 150 ≤ p.height := by
      have := hp2.2
      simp only [Bool.and_eq_true, decide_eq_true_eq] at this
      exact this
    exact ⟨i, photos, hip, p, hp2.1, hsz.1, hsz.2, rfl⟩
  · rintro ⟨i, photos, hip, p, hp, hw, hh, rfl⟩
    refine ⟨_, List.mem_map.2 ⟨⟨i, photos⟩, hip, rfl⟩, ?_⟩
    exact List.mem_map.2 ⟨p, List.mem_filter.2 ⟨hp, by simp [hw, hh]⟩, rfl⟩

lemma extract_photos_size {pdf_name : String} {pages : List (List Photo)}
    {r : PhotoRecord} (hr : r ∈ extract_photos pdf_name pages) :
    300 ≤ r.image.width ∧ 150 ≤ r.image.height ∧ r.file = pdf_name ∧
      r.md5 = md5 r.image.bytes := by
  obtain ⟨i, photos, hip, p, hp, hw, hh, rfl⟩ := extract_photos_mem.1 hr
  exact ⟨hw, hh, rfl, rfl⟩

lemma extractAll_ok_mem {batch : List Document} {records : List PhotoRecord}
    (h : extractAll batch = .ok records) :
    ∀ r ∈ records, ∃ d ∈ batch, r ∈ extract_photos d.name d.pages := by
  induction batch generalizing records with
  | nil =>
    intro r hr
    simp only [extractAll, Except.ok.injEq] at h
    subst h
    simp at hr
  | cons d ds ih =>
    intro r hr
    unfold extractAll extract_photosE at h
    cases hdp : d.parses with
    | false => rw [hdp] at h; simp at h
    | true =>
      rw [hdp] at h
      simp only [if_true] at h
      cases hx : extractAll ds with
      | error e => rw [hx] at h; simp at h
      | ok rest =>
        rw [hx] at h
        simp only [Except.ok.injEq] at h
        subst h
        rcases List.mem_append.1 hr with h1 | h1
        · exact ⟨d, List.mem_cons_self d ds, h1⟩
        · obtain ⟨d2, hd2, hr2⟩ := ih hx r h1
          exact ⟨d2, List.mem_cons_of_mem d hd2, hr2⟩

/-! ### Duplicate-grouping helpers -/

lemma mem_duplicated_records {records : List PhotoRecord} {r : PhotoRecord} :
    r ∈ duplicated_records records ↔
      r ∈ records ∧ 2 ≤ records.countP (fun r2 => r2.md5 == r.md5) := by
  simp [duplicated_records, List.mem_filter]

lemma mem_dupFingerprints {records : List PhotoRecord} {m : Nat} :
    m ∈ dupFingerprints records ↔
      2 ≤ records.countP (fun r => r.md5 == m) := by
  unfold dupFingerprints
  rw [(List.perm_insertionSort _ _).mem_iff, List.mem_dedup, List.mem_map]
  constructor
  · rintro ⟨r, hr, rfl⟩
    exact (mem_duplicated_records.1 hr).2
  · intro h
    have hpos : 0 < records.countP (fun r => r.md5 == m) := by omega
    obtain ⟨r, hr, hm⟩ := List.countP_pos_iff.1 hpos
    have hm2 : r.md5 = m := by simpa using hm
    refine ⟨r, mem_duplicated_records.2 ⟨hr, ?_⟩, hm2⟩
    rw [hm2]
    exact h

lemma duplicateSets_mem {records : List PhotoRecord} {s : Nat × List PhotoRecord}
    (hs : s ∈ duplicateSets records) :
    2 ≤ records.countP (fun r => r.md5 == s.1) ∧
      s.2 = records.filter (fun r => r.md5 == s.1) := by
  obtain ⟨m, hm, rfl⟩ := List.mem_map.1 hs
  have hc := mem_dupFingerprints.1 hm
  refine ⟨hc, ?_⟩
  unfold duplicated_records
  rw [List.filter_filter]
  apply List.filter_congr
  intro r hr
  by_cases h : r.md5 = m
  · rw [h]
    simp [hc]
  · simp [h]

lemma dupFingerprints_sorted (records : List PhotoRecord) :
    List.Sorted (· < ·) (dupFingerprints records) := by
  have hs : List.Sorted (· ≤ ·) (dupFingerprints records) :=
    List.sorted_insertionSort _ _
  have hn : (dupFingerprints records).Nodup :=
    (List.perm_insertionSort _ _).nodup_iff.2 (List.nodup_dedup _)
  exact hs.lt_of_le hn

lemma map_fst_pair {α β : Type} (f : α → β) (l : List α) :
    (l.map (fun m => (m, f m))).map Prod.fst = l := by
  induction l with
  | nil => rfl
  | cons x xs ih => simp [ih]

lemma duplicateSets_keys (records : List PhotoRecord) :
    (duplicateSets records).map Prod.fst = dupFingerprints records := by
  unfold duplicateSets
  exact map_fst_pair _ _

lemma duplicated_records_eq_nil {records : List PhotoRecord}
    (h : (records.map (fun r => r.md5)).Nodup) : duplicated_records records = [] := by
  unfold duplicated_records
  apply List.filter_eq_nil_iff.2
  intro r hr
  have hc : records.countP (fun r2 => r2.md5 == r.md5) ≤ 1 := by
    rw [countP_map_count]
    exact List.nodup_iff_count_le_one.1 h r.md5
  simp only [decide_eq_true_eq]
  omega

/-! ### Run-level helpers -/

lemma runDuplicateCheck_of_dup {batch : List Document} (hb : batch ≠ [])
    (h : (duplicated_filenames (batch.map (fun d => d.name))).Nonempty) :
    runDuplicateCheck batch =
      .duplicateNames (duplicated_filenames (batch.map (fun d => d.name))) := by
  unfold runDuplicateCheck
  rw [if_neg (by simp [hb]), if_pos h]

lemma extractAll_error_of_unparseable {batch : List Document}
    (d : Document) (hd : d ∈ batch) (hp : d.parses = false) :
    ∃ n, extractAll batch = .error n ∧ firstUnparseable batch = some n := by
  induction batch with
  | nil => simp at hd
  | cons d0 ds ih =>
    cases hdp : d0.parses with
    | false =>
      refine ⟨d0.name, ?_, ?_⟩
      · unfold extractAll extract_photosE
        rw [hdp]
        simp
      · unfold firstUnparseable
        rw [hdp]
        simp
    | true =>
      have hd2 : d ∈ ds := by
        rcases List.mem_cons.1 hd with rfl | h
        · rw [hdp] at hp; cases hp
        · exact h
      obtain ⟨n, hx, hf⟩ := ih hd2
      refine ⟨n, ?_, ?_⟩
      · unfold extractAll extract_photosE
        rw [hdp, hx]
        simp
      · unfold firstUnparseable
        rw [hdp]
        simpa using hf

/-! ### Claim C4 -/

/-- Claim C4, counterexample: it is false that for all pairs of extracted
images the fingerprints are equal iff the raw encoded byte sequences are
bit-identical.  The digest has only `2^128` possible values while byte
sequences are unbounded, so by the pigeonhole principle two distinct byte
sequences share a fingerprint (MD5 collisions exist). -/
theorem md5_injectivity_refuted :
    ¬ ∀ p q : Photo, (md5 p.bytes = md5 q.bytes ↔ p.bytes = q.bytes) := by
  intro hall
  obtain ⟨m, n, hmn, heq⟩ :=
    Finite.exists_ne_map_eq_of_infinite
      (fun k : Nat => (⟨md5 (List.replicate k 0), md5_lt _⟩ : Fin (2 ^ 128)))
  have hmd : md5 (List.replicate m 0) = md5 (List.replicate n 0) :=
    congrArg Fin.val heq
  have hb :=
    (hall ⟨List.replicate m 0, 300, 150⟩ ⟨List.replicate n 0, 300, 150⟩).mp hmd
  exact hmn (by simpa using congrArg List.length hb)

/-- Claim C4, amended: the fingerprint function is deterministic — images
with bit-identical raw byte sequences always receive equal fingerprints —
and the digest is a fixed 128-bit value; but fingerprint equality cannot
imply byte identity for all inputs (see the counterexample). -/
theorem fingerprint_deterministic (p q : Photo) (h : p.bytes = q.bytes) :
    md5 p.bytes = md5 q.bytes ∧ md5 p.bytes < 2 ^ 128 :=
  ⟨by rw [h], md5_lt _⟩

/-- Witness for the amended claim C4 at two concrete photos sharing their
byte payload. -/
theorem fingerprint_deterministic_w :
    md5 (Photo.mk [0] 300 150).bytes = md5 (Photo.mk [0] 400 200).bytes ∧
      md5 (Photo.mk [0] 300 150).bytes < 2 ^ 128 :=
  fingerprint_deterministic (Photo.mk [0] 300 150) (Photo.mk [0] 400 200) rfl

/-! ### Claims C1 and C2 (the `merge_group` defect, evaluated) -/

set_option maxRecDepth 4000000

/-- Claim C1, failing run: on `chainBatch`, `a.pdf` shares a duplicate with
`b.pdf`, `b.pdf` shares a different duplicate with `c.pdf`, and `a.pdf` and
`c.pdf` share no photo directly — yet no report group produced by the run
contains both `a.pdf` and `c.pdf`.  The `a.pdf`-`b.pdf` duplicate set is
processed last and `merge_group` folds it only into the first group it
intersects, so the transitive closure is not computed. -/
theorem merge_group_not_transitive :
    isResults (runDuplicateCheck chainBatch) = true ∧
    (∃ s ∈ duplicateSets chainRecords, "a.pdf" ∈ setFiles s ∧ "b.pdf" ∈ setFiles s) ∧
    (∃ s ∈ duplicateSets chainRecords, "b.pdf" ∈ setFiles s ∧ "c.pdf" ∈ setFiles s) ∧
    (¬ ∃ s ∈ duplicateSets chainRecords, "a.pdf" ∈ setFiles s ∧ "c.pdf" ∈ setFiles s) ∧
    (¬ ∃ g ∈ chainGroups, "a.pdf" ∈ g ∧ "c.pdf" ∈ g) := by
  decide

/-- Claim C2, failing run: on `chainBatch` the produced report groups are
not a partition of the documents appearing in duplicate sets — `b.pdf`
appears in a duplicate set yet lies in two distinct report groups. -/
theorem report_groups_overlap :
    isResults (runDuplicateCheck chainBatch) = true ∧
    (∃ s ∈ duplicateSets chainRecords, "b.pdf" ∈ setFiles s) ∧
    chainGroups.countP (fun g => decide ("b.pdf" ∈ g)) = 2 ∧
    chainGroups.Nodup := by
  decide

/-! ### Claim C3 -/

/-- Claim C3: a batch containing two distinct documents submitted under the
same name fails with the input error listing the offending names (the
colliding name among them), and no extraction is performed: the outcome is
the same for every batch with the same name list, whatever the documents
contain. -/
theorem duplicate_name_rejection (batch : List Document) (d1 d2 : Document)
    (h1 : d1 ∈ batch) (h2 : d2 ∈ batch) (hne : d1 ≠ d2)
    (hname : d1.name = d2.name) :
    runDuplicateCheck batch =
      .duplicateNames (duplicated_filenames (batch.map (fun d => d.name))) ∧
    d1.name ∈ duplicated_filenames (batch.map (fun d => d.name)) ∧
    ∀ batch2 : List Document,
      batch2.map (fun d => d.name) = batch.map (fun d => d.name) →
        runDuplicateCheck batch2 = runDuplicateCheck batch := by
  have hcount : 1 < (batch.map (fun d => d.name)).count d1.name := by
    rw [← countP_map_count]
    exact two_le_countP_of_mem _ batch d1 d2 h1 h2 hne (by simp) (by simp [hname])
  have hmem : d1.name ∈ duplicated_filenames (batch.map (fun d => d.name)) :=
    mem_duplicated_filenames.2 ⟨List.mem_map.2 ⟨d1, h1, rfl⟩, hcount⟩
  have hb : batch ≠ [] := List.ne_nil_of_mem h1
  have hres := runDuplicateCheck_of_dup hb ⟨d1.name, hmem⟩
  refine ⟨hres, hmem, ?_⟩
  intro batch2 hmap
  have hb2 : batch2 ≠ [] := by
    intro h
    rw [h] at hmap
    exact hb (List.map_eq_nil_iff.1 hmap.symm)
  have hres2 := runDuplicateCheck_of_dup hb2 (by rw [hmap]; exact ⟨d1.name, hmem⟩)
  rw [hres2, hres, hmap]

/-- Witness for claim C3: two distinct documents both named `x.pdf`. -/
theorem duplicate_name_rejection_w :
    runDuplicateCheck [Document.mk "x.pdf" true [], Document.mk "x.pdf" false []] =
      .duplicateNames (duplicated_filenames
        ([Document.mk "x.pdf" true [], Document.mk "x.pdf" false []].map
          (fun d => d.name))) ∧
    (Document.mk "x.pdf" true []).name ∈ duplicated_filenames
      ([Document.mk "x.pdf" true [], Document.mk "x.pdf" false []].map
        (fun d => d.name)) :=
  ⟨(duplicate_name_rejection [Document.mk "x.pdf" true [], Document.mk "x.pdf" false []]
      (Document.mk "x.pdf" true []) (Document.mk "x.pdf" false [])
      (by decide) (by decide) (by decide) rfl).1,
   (duplicate_name_rejection [Document.mk "x.pdf" true [], Document.mk "x.pdf" false []]
      (Document.mk "x.pdf" true []) (Document.mk "x.pdf" false [])
      (by decide) (by decide) (by decide) rfl).2.1⟩

/-! ### Claim C5 -/

/-- Claim C5: the duplicate grouper is a pure function of the record
snapshot that presents, for each fingerprint held by at least two records
(and only those), the list of records sharing it, with entries sorted by
fingerprint value ascending. -/
theorem duplicate_grouper_spec (records : List PhotoRecord) :
    List.Sorted (· < ·) ((duplicateSets records).map Prod.fst) ∧
    (∀ m : Nat, m ∈ (duplicateSets records).map Prod.fst ↔
      2 ≤ records.countP (fun r => r.md5 == m)) ∧
    (∀ s ∈ duplicateSets records,
      s.2 = records.filter (fun r => r.md5 == s.1)) := by
  refine ⟨?_, ?_, ?_⟩
  · rw [duplicateSets_keys]
    exact dupFingerprints_sorted records
  · intro m
    rw [duplicateSets_keys]
    exact mem_dupFingerprints
  · intro s hs
    exact (duplicateSets_mem hs).2

/-- Witness for claim C5 on `sampleRecords`: the key 5 is present exactly
because two records carry it, and its set lists the records sharing it. -/
theorem duplicate_grouper_spec_w :
    (5 ∈ (duplicateSets sampleRecords).map Prod.fst ↔
      2 ≤ sampleRecords.countP (fun r => r.md5 == 5)) ∧
    sampleSet.2 = sampleRecords.filter (fun r => r.md5 == sampleSet.1) :=
  ⟨(duplicate_grouper_spec sampleRecords).2.1 5,
   (duplicate_grouper_spec sampleRecords).2.2 sampleSet (by decide)⟩

/-! ### Claim C6 -/

/-- Claim C6: every record surviving extraction — and hence every record in
any duplicate set — satisfies the size threshold: an image with width or
height below it is dropped before hashing and never appears, whether or not
byte-identical copies exist elsewhere. -/
theorem size_filter_exclusion (batch : List Document) (records : List PhotoRecord)
    (hex : extractAll batch = .ok records) :
    (∀ r ∈ records, 300 ≤ r.image.width ∧ 150 ≤ r.image.height) ∧
    (∀ s ∈ duplicateSets records, ∀ r ∈ s.2,
      300 ≤ r.image.width ∧ 150 ≤ r.image.height) := by
  have hall : ∀ r ∈ records, 300 ≤ r.image.width ∧ 150 ≤ r.image.height := by
    intro r hr
    obtain ⟨d, hd, hr2⟩ := extractAll_ok_mem hex r hr
    obtain ⟨hw, hh, -, -⟩ := extract_photos_size hr2
    exact ⟨hw, hh⟩
  refine ⟨hall, ?_⟩
  intro s hs r hr
  rw [(duplicateSets_mem hs).2] at hr
  exact hall r (List.mem_filter.1 hr).1

/-- Witness for claim C6: the record extracted from `goodDoc` meets the
threshold. -/
theorem size_filter_exclusion_w :
    300 ≤ (PhotoRecord.mk "good.pdf" 0 (md5 [0]) ⟨[0], 300, 150⟩).image.width ∧
      150 ≤ (PhotoRecord.mk "good.pdf" 0 (md5 [0]) ⟨[0], 300, 150⟩).image.height :=
  (size_filter_exclusion [goodDoc]
      (extract_photos "good.pdf" [[⟨[0], 300, 150⟩]] ++ []) rfl).1
    (PhotoRecord.mk "good.pdf" 0 (md5 [0]) ⟨[0], 300, 150⟩) (by decide)

/-! ### Claim C10 -/

/-- Claim C10: a record is created for an embedded image exactly when its
decoded width is at least 300 pixels and its height at least 150 pixels;
the thresholds are the fixed constants of `extract_photos`. -/
theorem extraction_threshold_iff (pdf_name : String) (pages : List (List Photo))
    (i : Nat) (photos : List Photo) (hip : (i, photos) ∈ pages.enum)
    (p : Photo) (hp : p ∈ photos) :
    (∃ r ∈ extract_photos pdf_name pages, r.page = i ∧ r.image = p) ↔
      (300 ≤ p.width ∧ 150 ≤ p.height) := by
  constructor
  · rintro ⟨r, hr, -, hrp⟩
    obtain ⟨hw, hh, -, -⟩ := extract_photos_size hr
    rw [hrp] at hw hh
    exact ⟨hw, hh⟩
  · rintro ⟨hw, hh⟩
    exact ⟨⟨pdf_name, i, md5 p.bytes, p⟩,
      extract_photos_mem.2 ⟨i, photos, hip, p, hp, hw, hh, rfl⟩, rfl, rfl⟩

/-- Witness for claim C10 at the photo of `goodDoc`. -/
theorem extraction_threshold_iff_w :
    (∃ r ∈ extract_photos "good.pdf" [[⟨[0], 300, 150⟩]],
        r.page = 0 ∧ r.image = ⟨[0], 300, 150⟩) ↔
      (300 ≤ (Photo.mk [0] 300 150).width ∧
        150 ≤ (Photo.mk [0] 300 150).height) :=
  extraction_threshold_iff "good.pdf" [[⟨[0], 300, 150⟩]] 0 [⟨[0], 300, 150⟩]
    (by decide) ⟨[0], 300, 150⟩ (by decide)

/-! ### Claim C7 -/

/-- Claim C7, counterexample: with the unparseable `badDoc` followed by
`goodDoc`, the run aborts with a format error instead of skipping the bad
document: the remaining document, which alone reaches the no-duplicates
success state, is never processed. -/
theorem parse_abort_cex :
    runDuplicateCheck [badDoc, goodDoc] = .formatError "bad.pdf" ∧
    runDuplicateCheck [goodDoc] = .noDuplicates ∧
    RunResult.formatError "bad.pdf" ≠ RunResult.noDuplicates := by
  decide

/-- Claim C7, amended: a document that cannot be opened/parsed is not
caught per-document — the whole run aborts with a format error naming the
first unparseable document, and no result is produced for the others. -/
theorem parse_failure_aborts (batch : List Document)
    (hnd : (batch.map (fun d => d.name)).Nodup)
    (d : Document) (hd : d ∈ batch) (hp : d.parses = false) :
    ∃ n, runDuplicateCheck batch = .formatError n ∧
      firstUnparseable batch = some n := by
  obtain ⟨n, hx, hf⟩ := extractAll_error_of_unparseable d hd hp
  refine ⟨n, ?_, hf⟩
  have hA : ¬(batch.isEmpty = true) := by
    simp [List.ne_nil_of_mem hd]
  have hB : ¬(duplicated_filenames (batch.map (fun d => d.name))).Nonempty := by
    rw [duplicated_filenames_eq_empty hnd]
    exact Finset.not_nonempty_empty
  unfold runDuplicateCheck
  rw [if_neg hA, if_neg hB, hx]

/-- Witness for the amended claim C7 on the `badDoc`/`goodDoc` batch. -/
theorem parse_failure_aborts_w :
    ∃ n, runDuplicateCheck [badDoc, goodDoc] = .formatError n ∧
      firstUnparseable [badDoc, goodDoc] = some n :=
  parse_failure_aborts [badDoc, goodDoc] (by decide) badDoc (by decide) rfl

/-! ### Claim C8 -/

/-- Claim C8: with a valid nonempty batch, extracting zero photos yields
the explicit no-photos outcome, while extracting photos of pairwise
distinct fingerprints yields the no-duplicates outcome, and the two
terminal results are distinct. -/
theorem empty_state_distinction (batch : List Document) (hne : batch ≠ [])
    (hnd : (batch.map (fun d => d.name)).Nodup) :
    (extractAll batch = .ok [] → runDuplicateCheck batch = .noPhotos) ∧
    (∀ records, extractAll batch = .ok records → records ≠ [] →
      (records.map (fun r => r.md5)).Nodup →
        runDuplicateCheck batch = .noDuplicates) ∧
    RunResult.noPhotos ≠ RunResult.noDuplicates := by
  have hA : ¬(batch.isEmpty = true) := by simp [hne]
  have hB : ¬(duplicated_filenames (batch.map (fun d => d.name))).Nonempty := by
    rw [duplicated_filenames_eq_empty hnd]
    exact Finset.not_nonempty_empty
  refine ⟨?_, ?_, by decide⟩
  · intro hx
    unfold runDuplicateCheck
    rw [if_neg hA, if_neg hB, hx]
    rfl
  · intro records hx hrne hnodup
    unfold runDuplicateCheck
    rw [if_neg hA, if_neg hB, hx]
    have h1 : records.isEmpty = false := by
      simp [hrne]
    have h2 := duplicated_records_eq_nil hnodup
    simp [h1, h2]

/-- Witness for claim C8: a batch whose only image is filtered away ends in
the no-photos state; a batch with two distinct photos ends in the
no-duplicates state. -/
theorem empty_state_distinction_w :
    runDuplicateCheck [emptyDoc] = .noPhotos ∧
    runDuplicateCheck [twoDistinct] = .noDuplicates :=
  ⟨(empty_state_distinction [emptyDoc] (by decide) (by decide)).1 rfl,
   (empty_state_distinction [twoDistinct] (by decide) (by decide)).2.1
     (extract_photos "two.pdf" [[⟨[0], 300, 150⟩, ⟨[1], 300, 150⟩]] ++ [])
     rfl (by decide) (by decide)⟩

/-! ### Claim C9 -/

/-- Claim C9: in a batch of two differently named documents where the first
extracts exactly two records sharing a fingerprint (the same photo on two
different pages) and the second extracts photos of pairwise distinct
fingerprints none of which matches, the run produces exactly one duplicate
set holding the two records of the first document, and exactly one report
group whose only member is the first document's name. -/
theorem internal_duplicate_scenario
    (n1 n2 : String) (hn : n1 ≠ n2)
    (pgs1 pgs2 : List (List Photo))
    (r1 r2 : PhotoRecord)
    (hx1 : extract_photos n1 pgs1 = [r1, r2])
    (hmd : r1.md5 = r2.md5)
    (_hpg : r1.page ≠ r2.page)
    (hx2 : ((extract_photos n2 pgs2).map (fun r => r.md5)).Nodup)
    (hx2ne : ∀ r ∈ extract_photos n2 pgs2, r.md5 ≠ r1.md5) :
    runDuplicateCheck [⟨n1, true, pgs1⟩, ⟨n2, true, pgs2⟩] =
      .results [(r1.md5, [r1, r2])] [{n1}] := by
  have hr1 : r1 ∈ extract_photos n1 pgs1 := by rw [hx1]; simp
  have hr2 : r2 ∈ extract_photos n1 pgs1 := by rw [hx1]; simp
  have hf1 : r1.file = n1 := (extract_photos_size hr1).2.2.1
  have hf2 : r2.file = n1 := (extract_photos_size hr2).2.2.1
  have hx0 : extractAll [⟨n1, true, pgs1⟩, ⟨n2, true, pgs2⟩] =
      .ok (extract_photos n1 pgs1 ++ (extract_photos n2 pgs2 ++ [])) := rfl
  have hx : extractAll [⟨n1, true, pgs1⟩, ⟨n2, true, pgs2⟩] =
      .ok (r1 :: r2 :: extract_photos n2 pgs2) := by
    rw [hx0, hx1]
    simp
  have hcount0 : (extract_photos n2 pgs2).countP (fun x => x.md5 == r1.md5) = 0 :=
    List.countP_eq_zero.2 (fun r hr => by simpa using hx2ne r hr)
  have hc1 : (r1 :: r2 :: extract_photos n2 pgs2).countP
      (fun x => x.md5 == r1.md5) = 2 := by
    rw [List.countP_cons, List.countP_cons, hcount0]
    simp [hmd.symm]
  have hc2 : (r1 :: r2 :: extract_photos n2 pgs2).countP
      (fun x => x.md5 == r2.md5) = 2 := by
    rw [← hmd]
    exact hc1
  have hdup : duplicated_records (r1 :: r2 :: extract_photos n2 pgs2) = [r1, r2] := by
    unfold duplicated_records
    rw [List.filter_cons_of_pos (by simp [hc1]),
      List.filter_cons_of_pos (by simp [hc2]),
      List.filter_eq_nil_iff.2 ?_]
    intro r hr
    have hne1 : (r1.md5 == r.md5) = false := by
      simp [(hx2ne r hr).symm]
    have hne2 : (r2.md5 == r.md5) = false := by
      rw [← hmd]
      exact hne1
    have hle : (extract_photos n2 pgs2).countP (fun x => x.md5 == r.md5) ≤ 1 := by
      rw [countP_map_count]
      exact List.nodup_iff_count_le_one.1 hx2 r.md5
    simp [List.countP_cons, hne1, hne2]
    omega
  have hkeys : dupFingerprints (r1 :: r2 :: extract_photos n2 pgs2) = [r1.md5] := by
    unfold dupFingerprints
    rw [hdup]
    have hmap : ([r1, r2].map (fun r => r.md5)) = [r1.md5, r1.md5] := by
      simp [hmd.symm]
    rw [hmap, List.dedup_cons_of_mem (by simp),
      List.dedup_cons_of_not_mem (by simp), List.dedup_nil]
    simp [List.insertionSort, List.orderedInsert]
  have hsets : duplicateSets (r1 :: r2 :: extract_photos n2 pgs2) =
      [(r1.md5, [r1, r2])] := by
    unfold duplicateSets
    rw [hkeys, hdup]
    simp [hmd.symm]
  have hA : ¬(([⟨n1, true, pgs1⟩, ⟨n2, true, pgs2⟩] : List Document).isEmpty = true) := by
    simp
  have hB : ¬(duplicated_filenames
      (([⟨n1, true, pgs1⟩, ⟨n2, true, pgs2⟩] : List Document).map
        (fun d => d.name))).Nonempty := by
    rw [duplicated_filenames_eq_empty (by simp [hn])]
    exact Finset.not_nonempty_empty
  unfold runDuplicateCheck
  rw [if_neg hA, if_neg hB, hx]
  have hrne : ((r1 :: r2 :: extract_photos n2 pgs2).isEmpty) = false := rfl
  have hdne : ((duplicated_records (r1 :: r2 :: extract_photos n2 pgs2)).isEmpty) = false := by
    rw [hdup]
    rfl
  rw [show (match Except.ok (r1 :: r2 :: extract_photos n2 pgs2) with
      | Except.error name => RunResult.formatError name
      | Except.ok records =>
        if records.isEmpty = true then RunResult.noPhotos
        else
          if (duplicated_records records).isEmpty = true then RunResult.noDuplicates
          else RunResult.results (duplicateSets records)
            (report_groups (duplicateSets records))) =
      if (r1 :: r2 :: extract_photos n2 pgs2).isEmpty = true then RunResult.noPhotos
      else
        if (duplicated_records (r1 :: r2 :: extract_photos n2 pgs2)).isEmpty = true
          then RunResult.noDuplicates
        else RunResult.results (duplicateSets (r1 :: r2 :: extract_photos n2 pgs2))
          (report_groups (duplicateSets (r1 :: r2 :: extract_photos n2 pgs2)))
    from rfl]
  rw [hrne, hdne]
  simp only [Bool.false_eq_true, if_false, hsets]
  unfold report_groups merge_group setFiles
  simp [hf1, hf2]

/-- Witness for claim C9 on the two scenario documents: one duplicate set
with both records from `report1.pdf`, one report group containing only
`report1.pdf`. -/
theorem internal_duplicate_scenario_w :
    runDuplicateCheck [scenarioDoc1, scenarioDoc2] =
      .results [(md5 [9], [⟨"report1.pdf", 0, md5 [9], ⟨[9], 300, 150⟩⟩,
          ⟨"report1.pdf", 2, md5 [9], ⟨[9], 300, 150⟩⟩])]
        [{"report1.pdf"}] :=
  internal_duplicate_scenario "report1.pdf" "report2.pdf" (by decide)
    [[⟨[9], 300, 150⟩], [], [⟨[9], 300, 150⟩]] [[⟨[8], 300, 150⟩]]
    ⟨"report1.pdf", 0, md5 [9], ⟨[9], 300, 150⟩⟩
    ⟨"report1.pdf", 2, md5 [9], ⟨[9], 300, 150⟩⟩
    rfl rfl (by decide) (by decide) (by decide)

end InspectionDup
